import Mathlib

/-!
Verification development for the offline-first local data layer of the
Kidney Care application: the embedded SQLite schema, the connection
manager, the per-entity record services (vitals, food, medications,
auth/users) and the sync-queue table.

Each service function below is a shallow embedding of the corresponding
TypeScript function: the database is an explicit value of type `DB`
(one list of rows per table), every SQL statement the source issues is
translated into its effect on that value, and nondeterministic inputs of
the source (generated ids, `Date.now`, digests, random tokens) are
passed as explicit parameters.  Numeric columns are modelled as `Int`
(the claims under study do not depend on floating-point behaviour) and
TEXT columns as `String`; SQLite `NULL` is `Option.none`.  The JavaScript
truthiness coercions the source applies to bound parameters
(`x || null`, `x ? 1 : 0`, `x || default`) are modelled explicitly by the
`jsOr*` helpers.
-/

/-- Byte-wise character comparison, `Char` ordered by code point. -/
def charLt (a b : Char) : Bool := a.toNat < b.toNat

/-- Lexicographic order on character lists: the semantics SQLite's memcmp
comparison gives to TEXT values (identical to ISO-8601 chronological order
for the date strings stored by this app). -/
def charListLt : List Char → List Char → Bool
  | [], [] => false
  | [], _ :: _ => true
  | _ :: _, [] => false
  | a :: as, b :: bs => charLt a b || (a = b && charListLt as bs)

/-- SQLite TEXT `<`. -/
def strLt (a b : String) : Bool := charListLt a.data b.data

/-- SQLite TEXT `<=`. -/
def strLe (a b : String) : Bool := !(strLt b a)

/-- SQLite TEXT `>=`. -/
def strGe (a b : String) : Bool := strLe b a

/-- JavaScript `String.prototype.toLowerCase` on the ASCII range
(`email.toLowerCase()` in the auth service). -/
def lowerStr (s : String) : String := String.mk (s.data.map Char.toLower)

def isWs (c : Char) : Bool := c.isWhitespace

/-- JavaScript `String.prototype.trim` (`name.trim()` in the auth service). -/
def trimStr (s : String) : String :=
  String.mk (((s.data.dropWhile isWs).reverse.dropWhile isWs).reverse)

/-- JavaScript `v || null` applied to a numeric SQL parameter: `0` (falsy)
is coerced to `NULL`. -/
def jsOrNullInt (v : Int) : Option Int := if v = 0 then none else some v

/-- JavaScript `s || null` applied to a string SQL parameter: the empty
string (falsy) is coerced to `NULL`. -/
def jsOrNullStr (s : String) : Option String := if s = "" then none else some s

/-- SQLite `COALESCE(SUM(col), 0)`: `SUM` adds the non-NULL values of the
column and yields NULL when there are none, which `COALESCE` maps to 0. -/
def sqlSumC (xs : List (Option Int)) : Int := (xs.filterMap (fun x => x)).sum

/-! ## Row types (one structure per table, fields named after the columns
each service actually reads and writes) -/

/-- A `users` row as written by the auth service's INSERT
(`id, name, email, password_hash, role, created_at, updated_at, synced`).
`password_hash` is nullable (OAuth accounts). -/
structure UserRow where
  id : String
  name : String
  email : String
  role : String
  password_hash : Option String
  created_at : String
  updated_at : String
  synced : Bool
  deriving Repr, DecidableEq

/-- A `vitals` row (schema.ts: every measurement column is nullable,
`created_at`/`updated_at` are NOT NULL, `synced` defaults to 0). -/
structure VitalsRow where
  id : String
  user_id : String
  date : String
  weight : Option Int
  systolic : Option Int
  diastolic : Option Int
  heart_rate : Option Int
  oxygen_saturation : Option Int
  fluid_intake : Option Int
  urine_output : Option Int
  temperature : Option Int
  notes : Option String
  created_at : String
  updated_at : String
  synced : Bool
  deriving Repr, DecidableEq

/-- A `food_entries` row as the food service reads and writes it.  The
service's INSERT names the columns
`id, user_id, date, name, meal_type, serving_size, calories, protein,
carbs, fat, sodium, potassium, phosphorus, fluid, notes, created_at,
synced` and never writes `updated_at`, so `updated_at` is nullable here
(schema.ts declares it NOT NULL on a differently-named column set; the
service code is embedded as written). -/
structure FoodRow where
  id : String
  user_id : String
  date : String
  name : String
  meal_type : String
  serving_size : Option String
  calories : Option Int
  protein : Option Int
  carbs : Option Int
  fat : Option Int
  sodium : Option Int
  potassium : Option Int
  phosphorus : Option Int
  fluid : Option Int
  notes : Option String
  created_at : String
  updated_at : Option String
  synced : Bool
  deriving Repr, DecidableEq

/-- A `medications` row as the medication service reads and writes it
(INSERT columns `id, user_id, name, dosage, frequency, time_of_day,
start_date, end_date, instructions, reminder_enabled, created_at,
synced`; `updated_at` is never written by the service). -/
structure MedicationRow where
  id : String
  user_id : String
  name : String
  dosage : String
  frequency : String
  time_of_day : Option String
  start_date : String
  end_date : Option String
  instructions : Option String
  reminder_enabled : Bool
  created_at : String
  updated_at : Option String
  synced : Bool
  deriving Repr, DecidableEq

/-- A `medication_logs` row as written by `logMedicationIntake`
(`id, medication_id, user_id, taken_at, taken, notes, created_at,
synced`). -/
structure MedLogRow where
  id : String
  medication_id : String
  user_id : String
  taken_at : String
  taken : Bool
  notes : Option String
  created_at : String
  synced : Bool
  deriving Repr, DecidableEq

/-- A `subscriptions` row (read by `signIn` for the premium check). -/
structure SubscriptionRow where
  user_id : String
  plan : String
  status : String
  start_date : String
  end_date : Option String
  platform : String
  transaction_id : Option String
  deriving Repr, DecidableEq

/-- A `sync_queue` row (schema.ts: `id, table_name, record_id, operation,
data, created_at, attempts, last_attempt, error`). -/
structure SyncQueueRow where
  id : String
  table_name : String
  record_id : String
  operation : String
  data : String
  created_at : String
  attempts : Int
  last_attempt : Option String
  sync_error : Option String
  deriving Repr, DecidableEq

/-- The embedded database: one list of rows per table touched by the
services under study, plus the connection's `PRAGMA foreign_keys`
state. -/
structure DB where
  fk : Bool
  users : List UserRow
  vitals : List VitalsRow
  food_entries : List FoodRow
  medications : List MedicationRow
  medication_logs : List MedLogRow
  subscriptions : List SubscriptionRow
  sync_queue : List SyncQueueRow
  deriving Repr, DecidableEq

/-- A freshly opened connection before any PRAGMA: SQLite defaults
foreign-key enforcement to off. -/
def emptyDB : DB :=
  { fk := false, users := [], vitals := [], food_entries := [],
    medications := [], medication_logs := [], subscriptions := [],
    sync_queue := [] }

/-- `initDatabase` (lib/database.ts): if a handle already exists it is
returned unchanged; otherwise the database is opened,
`PRAGMA foreign_keys = ON` is executed, and the `CREATE TABLE IF NOT
EXISTS` / `CREATE INDEX IF NOT EXISTS` batches are applied. -/
def initDatabase (handle : Option DB) : DB :=
  match handle with
  | some db => db
  | none => { emptyDB with fk := true }

/-! ## Engine-level statement semantics (PRIMARY KEY and FOREIGN KEY
enforcement as SQLite applies them when `PRAGMA foreign_keys = ON`) -/

inductive SqlErr where
  | pkViolation
  | fkViolation
  deriving Repr, DecidableEq

def userExists (db : DB) (uid : String) : Bool :=
  db.users.any (fun u => u.id = uid)

/-- Raw `INSERT INTO vitals ...`: rejected when the PRIMARY KEY collides,
or when foreign keys are enforced and `user_id` references no `users`
row. -/
def insertVitalRow (db : DB) (r : VitalsRow) : Except SqlErr DB :=
  if db.vitals.any (fun x => x.id = r.id) then .error .pkViolation
  else if db.fk && !(userExists db r.user_id) then .error .fkViolation
  else .ok { db with vitals := db.vitals ++ [r] }

/-- Raw `INSERT INTO food_entries ...` under the same constraints. -/
def insertFoodRow (db : DB) (r : FoodRow) : Except SqlErr DB :=
  if db.food_entries.any (fun x => x.id = r.id) then .error .pkViolation
  else if db.fk && !(userExists db r.user_id) then .error .fkViolation
  else .ok { db with food_entries := db.food_entries ++ [r] }

/-- Raw `INSERT INTO medications ...` under the same constraints. -/
def insertMedicationRow (db : DB) (r : MedicationRow) : Except SqlErr DB :=
  if db.medications.any (fun x => x.id = r.id) then .error .pkViolation
  else if db.fk && !(userExists db r.user_id) then .error .fkViolation
  else .ok { db with medications := db.medications ++ [r] }

/-- Raw `DELETE FROM medications WHERE id = ?`: when foreign keys are
enforced, deleting a medication still referenced by a `medication_logs`
row violates the (non-cascading) FOREIGN KEY declared in schema.ts, so
the statement fails and removes nothing. -/
def sqliteDeleteMedicationRow (db : DB) (id : String) : Except SqlErr DB :=
  if db.fk && db.medications.any (fun m => m.id = id)
      && db.medication_logs.any (fun l => l.medication_id = id) then
    .error .fkViolation
  else
    .ok { db with medications := db.medications.filter (fun m => !(m.id = id)) }

/-! ## Vitals service (vitalsService.ts) -/

/-- The in-memory `VitalRecord` domain shape built by `createVitalRecord`
and returned by the `SELECT ... AS camelCase` queries. -/
structure VitalRecord where
  id : String
  userId : String
  date : String
  weight : Option Int
  systolic : Option Int
  diastolic : Option Int
  heartRate : Option Int
  oxygenSaturation : Option Int
  fluidIntake : Option Int
  urineOutput : Option Int
  temperature : Option Int
  notes : Option String
  createdAt : String
  updatedAt : String
  synced : Bool
  deriving Repr, DecidableEq

/-- `Partial<VitalRecord>` as consumed by `createVitalRecord` and
`updateVitalRecord`: every data field optional (`none` models both an
absent key and an explicit null/undefined, which the SQLite driver binds
identically as NULL). -/
structure VitalPartial where
  date : Option String := none
  weight : Option Int := none
  systolic : Option Int := none
  diastolic : Option Int := none
  heartRate : Option Int := none
  oxygenSaturation : Option Int := none
  fluidIntake : Option Int := none
  urineOutput : Option Int := none
  temperature : Option Int := none
  notes : Option String := none
  deriving Repr, DecidableEq

/-- Column image of a `VitalRecord`, as bound by the INSERT's parameter
list (a 1:1 mapping; `synced` is bound as `record.synced ? 1 : 0`). -/
def rowOfVitalRecord (r : VitalRecord) : VitalsRow :=
  { id := r.id, user_id := r.userId, date := r.date, weight := r.weight,
    systolic := r.systolic, diastolic := r.diastolic,
    heart_rate := r.heartRate, oxygen_saturation := r.oxygenSaturation,
    fluid_intake := r.fluidIntake, urine_output := r.urineOutput,
    temperature := r.temperature, notes := r.notes,
    created_at := r.createdAt, updated_at := r.updatedAt,
    synced := r.synced }

/-- Domain image of a `vitals` row, as aliased by the service's SELECT
(`user_id as userId`, ..., with `synced` read back as `!!r.synced`). -/
def vitalRecordOfRow (r : VitalsRow) : VitalRecord :=
  { id := r.id, userId := r.user_id, date := r.date, weight := r.weight,
    systolic := r.systolic, diastolic := r.diastolic,
    heartRate := r.heart_rate, oxygenSaturation := r.oxygen_saturation,
    fluidIntake := r.fluid_intake, urineOutput := r.urine_output,
    temperature := r.temperature, notes := r.notes,
    createdAt := r.created_at, updatedAt := r.updated_at,
    synced := r.synced }

/-- `createVitalRecord(userId, data)`: builds the full record (generated
`id`, `date: data.date || format(new Date(), 'yyyy-MM-dd')` — empty
string is falsy — `createdAt = updatedAt = now`, `synced: false`),
INSERTs its column image, and returns the record itself (no re-read).
`id`, `now` and `today` stand for the generated id, `new
Date().toISOString()` and the formatted current day. -/
def createVitalRecord (db : DB) (userId : String) (data : VitalPartial)
    (id now today : String) : DB × VitalRecord :=
  let record : VitalRecord :=
    { id := id, userId := userId,
      date := match data.date with
              | some d => if d = "" then today else d
              | none => today,
      weight := data.weight, systolic := data.systolic,
      diastolic := data.diastolic, heartRate := data.heartRate,
      oxygenSaturation := data.oxygenSaturation,
      fluidIntake := data.fluidIntake, urineOutput := data.urineOutput,
      temperature := data.temperature, notes := data.notes,
      createdAt := now, updatedAt := now, synced := false }
  ({ db with vitals := db.vitals ++ [rowOfVitalRecord record] }, record)

/-- First `vitals` row matching `WHERE id = ?`. -/
def findVitalRow (db : DB) (id : String) : Option VitalsRow :=
  db.vitals.find? (fun r => r.id = id)

/-- `getVitalRecord(id)`: SELECT by id, `null` when absent. -/
def getVitalRecord (db : DB) (id : String) : Option VitalRecord :=
  (findVitalRow db id).map vitalRecordOfRow

/-- The per-row effect of `updateVitalRecord`'s single UPDATE statement:
every data column is written `COALESCE(?, column)` (a bound NULL —
absent or null field — keeps the stored value), while `updated_at = ?`
and `synced = 0` are written unconditionally.  `id`, `user_id`, `date`
and `created_at` are not in the SET clause. -/
def applyVitalUpdate (data : VitalPartial) (now : String) (r : VitalsRow) :
    VitalsRow :=
  { r with
    weight := match data.weight with | some v => some v | none => r.weight,
    systolic := match data.systolic with | some v => some v | none => r.systolic,
    diastolic := match data.diastolic with | some v => some v | none => r.diastolic,
    heart_rate := match data.heartRate with | some v => some v | none => r.heart_rate,
    oxygen_saturation := match data.oxygenSaturation with
                         | some v => some v | none => r.oxygen_saturation,
    fluid_intake := match data.fluidIntake with
                    | some v => some v | none => r.fluid_intake,
    urine_output := match data.urineOutput with
                    | some v => some v | none => r.urine_output,
    temperature := match data.temperature with
                   | some v => some v | none => r.temperature,
    notes := match data.notes with | some v => some v | none => r.notes,
    updated_at := now, synced := false }

/-- `updateVitalRecord(id, data)`: one UPDATE ... WHERE id = ?. -/
def updateVitalRecord (db : DB) (id : String) (data : VitalPartial)
    (now : String) : DB :=
  { db with vitals := db.vitals.map (fun r =>
      if r.id = id then applyVitalUpdate data now r else r) }

/-- `deleteVitalRecord(id)`. -/
def deleteVitalRecord (db : DB) (id : String) : DB :=
  { db with vitals := db.vitals.filter (fun r => !(r.id = id)) }

/-! ## Food service (foodService.ts) -/

/-- `CreateFoodEntryData`: `userId`, `name`, `mealType` required, the
rest optional.  `date` models `data.date?.toISOString()`. -/
structure CreateFoodEntryData where
  userId : String
  name : String
  mealType : String
  servingSize : Option String := none
  calories : Option Int := none
  protein : Option Int := none
  carbs : Option Int := none
  fat : Option Int := none
  sodium : Option Int := none
  potassium : Option Int := none
  phosphorus : Option Int := none
  fluid : Option Int := none
  notes : Option String := none
  date : Option String := none
  deriving Repr, DecidableEq

/-- `createFoodEntry(data)`: computes
`timestamp = (data.date || new Date()).toISOString()` (a Date object is
always truthy), INSERTs with every optional parameter bound through
JavaScript `|| null` — so a supplied 0 or empty string is stored as
NULL — with `created_at = timestamp` and `synced = 0`, then re-SELECTs
the row by id (`none` here corresponds to the thrown
'Failed to create food entry').

`foodRowOfCreate` is the row image the INSERT's parameter list binds. -/
def foodRowOfCreate (data : CreateFoodEntryData) (id now : String) : FoodRow :=
  let timestamp := data.date.getD now
  { id := id, user_id := data.userId, date := timestamp,
    name := data.name, meal_type := data.mealType,
    serving_size := data.servingSize.bind jsOrNullStr,
    calories := data.calories.bind jsOrNullInt,
    protein := data.protein.bind jsOrNullInt,
    carbs := data.carbs.bind jsOrNullInt,
    fat := data.fat.bind jsOrNullInt,
    sodium := data.sodium.bind jsOrNullInt,
    potassium := data.potassium.bind jsOrNullInt,
    phosphorus := data.phosphorus.bind jsOrNullInt,
    fluid := data.fluid.bind jsOrNullInt,
    notes := data.notes.bind jsOrNullStr,
    created_at := timestamp, updated_at := none, synced := false }

def createFoodEntry (db : DB) (data : CreateFoodEntryData)
    (id now : String) : DB × Option FoodRow :=
  let row := foodRowOfCreate data id now
  let db2 := { db with food_entries := db.food_entries ++ [row] }
  (db2, db2.food_entries.find? (fun r => r.id = id))

/-- `getFoodEntry(id)`: SELECT by id, `null` when absent. -/
def getFoodEntry (db : DB) (id : String) : Option FoodRow :=
  db.food_entries.find? (fun r => r.id = id)

/-- The rows `WHERE user_id = ? AND date >= ? AND date <= ?` selects
(`startOfDay`/`endOfDay` stand for the ISO strings the service computes
for the requested day's bounds). -/
def foodEntriesInDay (db : DB) (userId startOfDay endOfDay : String) :
    List FoodRow :=
  db.food_entries.filter
    (fun r => r.user_id = userId && strGe r.date startOfDay
              && strLe r.date endOfDay)

/-- Result shape of `getDailyNutritionSummary`. -/
structure NutritionSummary where
  totalCalories : Int
  totalProtein : Int
  totalCarbs : Int
  totalFat : Int
  totalSodium : Int
  totalPotassium : Int
  totalPhosphorus : Int
  totalFluid : Int
  entriesCount : Nat
  deriving Repr, DecidableEq

/-- `getDailyNutritionSummary(userId, date)`: one aggregate SELECT with
`COUNT(*)` and `COALESCE(SUM(col), 0)` per nutrient column over the
day's rows.  (The subsequent `result?.field || 0` fallbacks are identity
on these already-non-null aggregates.) -/
def getDailyNutritionSummary (db : DB) (userId startOfDay endOfDay : String) :
    NutritionSummary :=
  let rows := foodEntriesInDay db userId startOfDay endOfDay
  { totalCalories := sqlSumC (rows.map (fun r => r.calories)),
    totalProtein := sqlSumC (rows.map (fun r => r.protein)),
    totalCarbs := sqlSumC (rows.map (fun r => r.carbs)),
    totalFat := sqlSumC (rows.map (fun r => r.fat)),
    totalSodium := sqlSumC (rows.map (fun r => r.sodium)),
    totalPotassium := sqlSumC (rows.map (fun r => r.potassium)),
    totalPhosphorus := sqlSumC (rows.map (fun r => r.phosphorus)),
    totalFluid := sqlSumC (rows.map (fun r => r.fluid)),
    entriesCount := rows.length }

/-- `Partial<CreateFoodEntryData>` as consumed by `updateFoodEntry`:
`none` means the key is absent from the partial (the code's
`!== undefined` guards).  `userId` and `date` have no branch in the
update code and are omitted. -/
structure FoodEntryUpdates where
  name : Option String := none
  mealType : Option String := none
  servingSize : Option String := none
  calories : Option Int := none
  protein : Option Int := none
  carbs : Option Int := none
  fat : Option Int := none
  sodium : Option Int := none
  potassium : Option Int := none
  phosphorus : Option Int := none
  fluid : Option Int := none
  notes : Option String := none
  deriving Repr, DecidableEq

/-- Per-row effect of `updateFoodEntry`'s dynamically built UPDATE: only
the supplied fields appear in the SET list (optional values again bound
through `|| null`), plus an unconditional `synced = 0`.  `updated_at` is
not in the SET list. -/
def applyFoodUpdate (upd : FoodEntryUpdates) (r : FoodRow) : FoodRow :=
  { r with
    name := upd.name.getD r.name,
    meal_type := upd.mealType.getD r.meal_type,
    serving_size := match upd.servingSize with
                    | some s => jsOrNullStr s | none => r.serving_size,
    calories := match upd.calories with
                | some v => jsOrNullInt v | none => r.calories,
    protein := match upd.protein with
               | some v => jsOrNullInt v | none => r.protein,
    carbs := match upd.carbs with
             | some v => jsOrNullInt v | none => r.carbs,
    fat := match upd.fat with
           | some v => jsOrNullInt v | none => r.fat,
    sodium := match upd.sodium with
              | some v => jsOrNullInt v | none => r.sodium,
    potassium := match upd.potassium with
                 | some v => jsOrNullInt v | none => r.potassium,
    phosphorus := match upd.phosphorus with
                  | some v => jsOrNullInt v | none => r.phosphorus,
    fluid := match upd.fluid with
             | some v => jsOrNullInt v | none => r.fluid,
    notes := match upd.notes with
             | some s => jsOrNullStr s | none => r.notes,
    synced := false }

/-- `updateFoodEntry(id, updates)`. -/
def updateFoodEntry (db : DB) (id : String) (upd : FoodEntryUpdates) : DB :=
  { db with food_entries := db.food_entries.map (fun r =>
      if r.id = id then applyFoodUpdate upd r else r) }

/-- `deleteFoodEntry(id)`. -/
def deleteFoodEntry (db : DB) (id : String) : DB :=
  { db with food_entries := db.food_entries.filter (fun r => !(r.id = id)) }

/-! ## Medication service (medicationService.ts).  The notification
scheduling calls surrounding the SQL are external side effects with no
database footprint and are not part of this state model. -/

/-- `CreateMedicationData` (`startDate`/`endDate` model the
`?.toISOString()` images of the optional Date arguments). -/
structure CreateMedicationData where
  userId : String
  name : String
  dosage : String
  frequency : String
  timeOfDay : Option String := none
  startDate : Option String := none
  endDate : Option String := none
  instructions : Option String := none
  reminderEnabled : Option Bool := none
  deriving Repr, DecidableEq

/-- `createMedication(data)`: INSERT with
`time_of_day = data.timeOfDay || null`,
`start_date = data.startDate?.toISOString() || timestamp`,
`end_date = data.endDate?.toISOString() || null`,
`instructions = data.instructions || null`,
`reminder_enabled = data.reminderEnabled ? 1 : 0`, `created_at` = now,
`synced = 0`; then re-SELECT by id (`none` is the thrown
'Failed to create medication'). -/
def createMedication (db : DB) (data : CreateMedicationData)
    (id now : String) : DB × Option MedicationRow :=
  let row : MedicationRow :=
    { id := id, user_id := data.userId, name := data.name,
      dosage := data.dosage, frequency := data.frequency,
      time_of_day := data.timeOfDay.bind jsOrNullStr,
      start_date := data.startDate.getD now,
      end_date := data.endDate,
      instructions := data.instructions.bind jsOrNullStr,
      reminder_enabled := data.reminderEnabled.getD false,
      created_at := now, updated_at := none, synced := false }
  let db2 := { db with medications := db.medications ++ [row] }
  (db2, db2.medications.find? (fun r => r.id = id))

/-- `getMedication(id)`. -/
def getMedication (db : DB) (id : String) : Option MedicationRow :=
  db.medications.find? (fun r => r.id = id)

/-- `Partial<CreateMedicationData>` as consumed by `updateMedication`
(`none` = key absent, i.e. the `!== undefined` guard fails). -/
structure MedicationUpdates where
  name : Option String := none
  dosage : Option String := none
  frequency : Option String := none
  timeOfDay : Option String := none
  startDate : Option String := none
  endDate : Option String := none
  instructions : Option String := none
  reminderEnabled : Option Bool := none
  deriving Repr, DecidableEq

/-- Per-row effect of `updateMedication`'s dynamically built UPDATE:
supplied fields only (`timeOfDay` and `instructions` bound through
`|| null`; a present `startDate`/`endDate` is a Date, whose
`toISOString()` is never falsy), plus an unconditional `synced = 0`.
`updated_at` is not in the SET list. -/
def applyMedUpdate (upd : MedicationUpdates) (r : MedicationRow) :
    MedicationRow :=
  { r with
    name := upd.name.getD r.name,
    dosage := upd.dosage.getD r.dosage,
    frequency := upd.frequency.getD r.frequency,
    time_of_day := match upd.timeOfDay with
                   | some s => jsOrNullStr s | none => r.time_of_day,
    start_date := upd.startDate.getD r.start_date,
    end_date := match upd.endDate with
                | some s => some s | none => r.end_date,
    instructions := match upd.instructions with
                    | some s => jsOrNullStr s | none => r.instructions,
    reminder_enabled := upd.reminderEnabled.getD r.reminder_enabled,
    synced := false }

/-- `updateMedication(id, updates)`: the single UPDATE statement (the
subsequent re-read and notification rescheduling do not touch the
database). -/
def updateMedication (db : DB) (id : String) (upd : MedicationUpdates) : DB :=
  { db with medications := db.medications.map (fun r =>
      if r.id = id then applyMedUpdate upd r else r) }

/-- First statement of `deleteMedication`:
`DELETE FROM medications WHERE id = ?` (its service-level effect,
i.e. ignoring engine FK enforcement, which `sqliteDeleteMedicationRow`
models). -/
def deleteMedicationStmt1 (db : DB) (id : String) : DB :=
  { db with medications := db.medications.filter (fun r => !(r.id = id)) }

/-- Second statement of `deleteMedication`:
`DELETE FROM medication_logs WHERE medication_id = ?`. -/
def deleteMedicationStmt2 (db : DB) (id : String) : DB :=
  { db with medication_logs :=
      db.medication_logs.filter (fun r => !(r.medication_id = id)) }

/-- `deleteMedication(id)`: the two DELETE statements above, issued
sequentially as two independent `db.runAsync` calls — there is no
surrounding transaction. -/
def deleteMedication (db : DB) (id : String) : DB :=
  deleteMedicationStmt2 (deleteMedicationStmt1 db id) id

/-- `logMedicationIntake(medicationId, userId, taken, notes)`: INSERT
with `taken_at = created_at = now`, `taken ? 1 : 0`, `notes || null`,
`synced = 0`; then re-SELECT by id. -/
def logMedicationIntake (db : DB) (medicationId userId : String)
    (taken : Bool) (notes : Option String) (id now : String) :
    DB × Option MedLogRow :=
  let row : MedLogRow :=
    { id := id, medication_id := medicationId, user_id := userId,
      taken_at := now, taken := taken,
      notes := notes.bind jsOrNullStr,
      created_at := now, synced := false }
  let db2 := { db with medication_logs := db.medication_logs ++ [row] }
  (db2, db2.medication_logs.find? (fun r => r.id = id))

/-- The logs `WHERE user_id = ? AND taken_at >= ?` selects (`start`
stands for the ISO string of `now - days`). -/
def adherenceLogs (db : DB) (userId start : String) : List MedLogRow :=
  db.medication_logs.filter
    (fun r => r.user_id = userId && strGe r.taken_at start)

/-- Result shape of `getMedicationAdherence`. -/
structure AdherenceStats where
  totalDoses : Nat
  takenDoses : Nat
  missedDoses : Nat
  adherenceRate : ℚ
  deriving Repr, DecidableEq

/-- `getMedicationAdherence(userId, days)`: `COUNT(*)`,
`SUM(CASE WHEN taken = 1 THEN 1 ELSE 0 END)` and
`SUM(CASE WHEN taken = 0 THEN 1 ELSE 0 END)` over the window, then
`adherenceRate = totalDoses > 0 ? takenDoses / totalDoses * 100 : 0`. -/
def getMedicationAdherence (db : DB) (userId start : String) :
    AdherenceStats :=
  let rows := adherenceLogs db userId start
  let total := rows.length
  let taken := (rows.filter (fun r => r.taken)).length
  let missed := (rows.filter (fun r => !r.taken)).length
  { totalDoses := total, takenDoses := taken, missedDoses := missed,
    adherenceRate :=
      if 0 < total then ((taken : ℚ) / (total : ℚ)) * 100 else 0 }

/-! ## Auth service (authService.ts).  `hash` abstracts the SHA-256
digest (`Crypto.digestStringAsync`), `token` the random session token,
and `now` the current ISO timestamp; a `DbOracle` records, per database
call site in program order, whether the underlying driver call throws
(`true` = the awaited call rejects), so the `try/catch` structure of
each function can be embedded: the `*Body` functions are the try blocks
with driver failures propagating as `Except.error`, and the exported
functions wrap them with the catch clause's fallback response. -/

/-- `AuthResponse`'s `user` payload. -/
structure AuthUser where
  id : String
  name : String
  email : String
  role : String
  isPremium : Bool
  deriving Repr, DecidableEq

structure AuthResponse where
  success : Bool
  message : String
  user : Option AuthUser := none
  token : Option String := none
  deriving Repr, DecidableEq

structure SignupData where
  name : String
  email : String
  password : String
  role : Option String := none
  deriving Repr, DecidableEq

/-- One flag per driver call site, in program order. -/
structure DbOracle where
  a : Bool
  b : Bool
  c : Bool
  deriving Repr, DecidableEq

/-- The oracle of a run in which every driver call succeeds. -/
def DbOracle.allOk : DbOracle := ⟨false, false, false⟩

/-- The email regexp of `isValidEmail`:
one or more non-whitespace-non-at characters, an at sign, one or more
non-whitespace-non-at characters, a literal dot, one or more
non-whitespace-non-at characters, anchored at both ends.  Equivalently:
no whitespace anywhere, exactly one at sign, a nonempty local part, and
a dot somewhere strictly inside the domain part (the chunks themselves
may contain further dots). -/
def isValidEmail (s : String) : Bool :=
  let cs := s.data
  let before := cs.takeWhile (fun c => !(c = '@'))
  let after := (cs.dropWhile (fun c => !(c = '@'))).drop 1
  cs.all (fun c => !(isWs c)) && cs.count '@' = 1 && !(before.isEmpty)
    && (after.drop 1).dropLast.contains '.'

/-- `SELECT ... FROM users WHERE email = ?` (first row). -/
def findUserByEmail (db : DB) (email : String) : Option UserRow :=
  db.users.find? (fun u => u.email = email)

/-- The catch-clause response of `signUp`. -/
def signUpCatchResponse : AuthResponse :=
  { success := false,
    message := "An error occurred during sign up. Please try again." }

/-- The try block of `signUp(data)`: validations (JavaScript
`!name || name.trim().length < 2` collapses to the trimmed-length test,
since an empty name trims to length 0; likewise `!password ||
password.length < 6`), duplicate-email lookup on the lower-cased email
(driver site `a`), INSERT of the new row (site `b`), and re-SELECT of
the created user (site `c`). -/
def signUpBody (o : DbOracle) (hash : String → String) (db : DB)
    (data : SignupData) (userId token now : String) :
    Except String AuthResponse :=
  let role := data.role.getD "patient"
  if (trimStr data.name).length < 2 then
    .ok { success := false,
          message := "Name must be at least 2 characters long" }
  else if !(isValidEmail data.email) then
    .ok { success := false,
          message := "Please enter a valid email address" }
  else if data.password.length < 6 then
    .ok { success := false,
          message := "Password must be at least 6 characters long" }
  else if o.a then .error "QueryError"
  else match findUserByEmail db (lowerStr data.email) with
  | some _ =>
    .ok { success := false,
          message := "An account with this email already exists" }
  | none =>
    if o.b then .error "QueryError"
    else
      let newUser : UserRow :=
        { id := userId, name := trimStr data.name,
          email := lowerStr data.email, role := role,
          password_hash := some (hash data.password),
          created_at := now, updated_at := now, synced := false }
      let db2 := { db with users := db.users ++ [newUser] }
      if o.c then .error "QueryError"
      else match db2.users.find? (fun u => u.id = userId) with
      | none =>
        .ok { success := false, message := "Failed to create user account" }
      | some u =>
        .ok { success := true, message := "Account created successfully",
              user := some { id := u.id, name := u.name, email := u.email,
                             role := u.role, isPremium := false },
              token := some token }

/-- `signUp(data)` = try block + catch clause. -/
def signUp (o : DbOracle) (hash : String → String) (db : DB)
    (data : SignupData) (userId token now : String) : AuthResponse :=
  match signUpBody o hash db data userId token now with
  | .ok r => r
  | .error _ => signUpCatchResponse

/-- The catch-clause response of `signIn`. -/
def signInCatchResponse : AuthResponse :=
  { success := false,
    message := "An error occurred during login. Please try again." }

/-- The single failure response for non-matching credentials: the code
returns the same object whether no user row carries the email or the
stored hash differs from the submitted password's hash. -/
def invalidCredentialsResponse : AuthResponse :=
  { success := false, message := "Invalid email or password" }

/-- The try block of `signIn(credentials)`: email-format and
nonempty-password validations, user lookup by lower-cased email (driver
site `a`), the combined `!user || user.password_hash !== passwordHash`
credential test, then the premium-subscription lookup (site `b`). -/
def signInBody (o : DbOracle) (hash : String → String) (db : DB)
    (email password : String) (token now : String) :
    Except String AuthResponse :=
  if !(isValidEmail email) then
    .ok { success := false, message := "Please enter a valid email address" }
  else if password = "" then
    .ok { success := false, message := "Please enter your password" }
  else if o.a then .error "QueryError"
  else match findUserByEmail db (lowerStr email) with
  | none => .ok invalidCredentialsResponse
  | some u =>
    if !(u.password_hash = some (hash password)) then
      .ok invalidCredentialsResponse
    else if o.b then .error "QueryError"
    else
      let subscription := db.subscriptions.find? (fun s =>
        s.user_id = u.id && s.status = "active" &&
          (match s.end_date with
           | some d => strLt now d
           | none => false))
      .ok { success := true, message := "Login successful",
            user := some { id := u.id, name := u.name, email := u.email,
                           role := u.role,
                           isPremium := subscription.isSome },
            token := some token }

/-- `signIn(credentials)` = try block + catch clause. -/
def signIn (o : DbOracle) (hash : String → String) (db : DB)
    (email password : String) (token now : String) : AuthResponse :=
  match signInBody o hash db email password token now with
  | .ok r => r
  | .error _ => signInCatchResponse

/-- The catch-clause response of `changePassword`. -/
def changePasswordCatchResponse : AuthResponse :=
  { success := false, message := "Failed to change password" }

/-- The try block of `changePassword(userId, currentPassword,
newPassword)`: length validation, current-hash check against the user's
row (driver site `a`; a missing row and a wrong current password share
one response), then the UPDATE (site `b`).  The UPDATE's row effect is
not observed by any property below; the body returns the response. -/
def changePasswordBody (o : DbOracle) (hash : String → String) (db : DB)
    (userId currentPassword newPassword : String) :
    Except String AuthResponse :=
  if newPassword.length < 6 then
    .ok { success := false,
          message := "New password must be at least 6 characters long" }
  else if o.a then .error "QueryError"
  else match db.users.find? (fun u => u.id = userId) with
  | none =>
    .ok { success := false, message := "Current password is incorrect" }
  | some u =>
    if !(u.password_hash = some (hash currentPassword)) then
      .ok { success := false, message := "Current password is incorrect" }
    else if o.b then .error "QueryError"
    else .ok { success := true, message := "Password changed successfully" }

/-- `changePassword(...)` = try block + catch clause. -/
def changePassword (o : DbOracle) (hash : String → String) (db : DB)
    (userId currentPassword newPassword : String) : AuthResponse :=
  match changePasswordBody o hash db userId currentPassword newPassword with
  | .ok r => r
  | .error _ => changePasswordCatchResponse

/-! ## Shared helper lemmas -/

/-- `find?` commutes with a map that preserves the predicate (used for
UPDATE ... WHERE id: the per-row transform keeps `id` intact). -/
theorem find_map_pres {α : Type} (g : α → α) (p : α → Bool) (l : List α)
    (h : ∀ a, p (g a) = p a) : (l.map g).find? p = (l.find? p).map g := by
  induction l with
  | nil => simp
  | cons x xs ih =>
    simp only [List.map_cons, List.find?]
    rw [h x]
    cases hp : p x <;> simp [ih]

/-- Appending a row to a table in which no row matches makes `find?`
see exactly the new row. -/
theorem find_append_fresh {α : Type} (l : List α) (x : α) (p : α → Bool)
    (h : l.find? p = none) :
    (l ++ [x]).find? p = if p x then some x else none := by
  rw [List.find?_append, h]
  cases hp : p x <;> simp [List.find?, hp]

/-- SQL `SUM` ignores NULLs, which is the same as summing with NULL read
as zero. -/
theorem sqlSumC_eq_sum_getD (xs : List (Option Int)) :
    sqlSumC xs = (xs.map (fun o => o.getD 0)).sum := by
  induction xs with
  | nil => rfl
  | cons x xs ih =>
    cases x <;> simp [sqlSumC, List.filterMap_cons, List.sum_cons] at ih ⊢
      <;> omega

/-- The taken/missed counts of a log list partition its length. -/
theorem filter_partition_length {α : Type} (p : α → Bool) (l : List α) :
    (l.filter p).length + (l.filter (fun a => !(p a))).length = l.length := by
  induction l with
  | nil => rfl
  | cons x xs ih =>
    cases hp : p x <;> simp [List.filter_cons, hp] <;> omega

/-- `updateVitalRecord` rewrites exactly the row(s) matching the id. -/
theorem updateVitalRecord_find (db : DB) (id : String) (data : VitalPartial)
    (now : String) (row : VitalsRow) (h : findVitalRow db id = some row) :
    findVitalRow (updateVitalRecord db id data now) id =
      some (applyVitalUpdate data now row) := by
  simp only [findVitalRow] at h
  have hid : row.id = id := by simpa using List.find?_some h
  have hpres : ∀ r : VitalsRow,
      (decide ((if r.id = id then applyVitalUpdate data now r else r).id = id))
        = decide (r.id = id) := by
    intro r
    by_cases hr : r.id = id <;> simp [applyVitalUpdate, hr]
  simp only [findVitalRow, updateVitalRecord]
  rw [find_map_pres _ _ _ hpres, h]
  simp [hid]

/-- `updateFoodEntry` rewrites exactly the row(s) matching the id. -/
theorem updateFoodEntry_find (db : DB) (id : String) (upd : FoodEntryUpdates)
    (row : FoodRow) (h : getFoodEntry db id = some row) :
    getFoodEntry (updateFoodEntry db id upd) id =
      some (applyFoodUpdate upd row) := by
  simp only [getFoodEntry] at h
  have hid : row.id = id := by simpa using List.find?_some h
  have hpres : ∀ r : FoodRow,
      (decide ((if r.id = id then applyFoodUpdate upd r else r).id = id))
        = decide (r.id = id) := by
    intro r
    by_cases hr : r.id = id <;> simp [applyFoodUpdate, hr]
  simp only [getFoodEntry, updateFoodEntry]
  rw [find_map_pres _ _ _ hpres, h]
  simp [hid]

/-- `updateMedication` rewrites exactly the row(s) matching the id. -/
theorem updateMedication_find (db : DB) (id : String)
    (upd : MedicationUpdates) (row : MedicationRow)
    (h : getMedication db id = some row) :
    getMedication (updateMedication db id upd) id =
      some (applyMedUpdate upd row) := by
  simp only [getMedication] at h
  have hid : row.id = id := by simpa using List.find?_some h
  have hpres : ∀ r : MedicationRow,
      (decide ((if r.id = id then applyMedUpdate upd r else r).id = id))
        = decide (r.id = id) := by
    intro r
    by_cases hr : r.id = id <;> simp [applyMedUpdate, hr]
  simp only [getMedication, updateMedication]
  rw [find_map_pres _ _ _ hpres, h]
  simp [hid]

/-! ## Concrete fixtures used by counterexamples and witnesses -/

def user1 : UserRow :=
  { id := "u1", name := "Pat", email := "pat@example.com",
    role := "patient", password_hash := some "h1",
    created_at := "2024-01-01T00:00:00.000Z",
    updated_at := "2024-01-01T00:00:00.000Z", synced := false }

/-- An initialized database holding one user. -/
def dbWithUser : DB := { emptyDB with fk := true, users := [user1] }

def vital0 : VitalsRow :=
  { id := "v1", user_id := "u1", date := "2024-01-10",
    weight := some 70, systolic := some 120, diastolic := some 80,
    heart_rate := some 60, oxygen_saturation := some 98,
    fluid_intake := some 1500, urine_output := some 500,
    temperature := some 37, notes := some "ok",
    created_at := "2024-01-10T08:00:00.000Z",
    updated_at := "2024-01-10T08:00:00.000Z", synced := true }

def dbV : DB := { dbWithUser with vitals := [vital0] }

def med0 : MedicationRow :=
  { id := "m1", user_id := "u1", name := "Lisinopril", dosage := "10mg",
    frequency := "Once daily", time_of_day := some "08:00",
    start_date := "2024-01-01T00:00:00.000Z", end_date := none,
    instructions := some "with water", reminder_enabled := true,
    created_at := "2024-01-01T00:00:00.000Z",
    updated_at := some "2024-01-01T00:00:00.000Z", synced := true }

def dbMed : DB := { dbWithUser with medications := [med0] }

def log1 : MedLogRow :=
  { id := "l1", medication_id := "m1", user_id := "u1",
    taken_at := "2024-02-01T08:00:00.000Z", taken := true, notes := none,
    created_at := "2024-02-01T08:00:00.000Z", synced := false }

def dbMedLog : DB := { dbMed with medication_logs := [log1] }

def dbMedLogNoFk : DB := { dbMedLog with fk := false }

/-- One intake log; `tk` is the taken flag. -/
def mkLog (i : String) (tk : Bool) : MedLogRow :=
  { id := i, medication_id := "m1", user_id := "u1",
    taken_at := "2024-02-05T08:00:00.000Z", taken := tk, notes := none,
    created_at := "2024-02-05T08:00:00.000Z", synced := false }

/-- Seven taken and three missed doses inside the trailing window. -/
def adherenceDb : DB :=
  { dbWithUser with medication_logs :=
      [mkLog "t1" true, mkLog "t2" true, mkLog "t3" true, mkLog "t4" true,
       mkLog "t5" true, mkLog "t6" true, mkLog "t7" true,
       mkLog "x1" false, mkLog "x2" false, mkLog "x3" false] }

def wHash : String → String := fun s => s.append "#digest"

/-! ## Claim C1 -/

/-- Claim C1 counterexample: a successful `createVitalRecord` (it returns
the created record and the row is inserted) writes zero `sync_queue`
rows, not exactly one matching `(tableName, recordId, operation)` entry:
the queue of the resulting state is empty. -/
theorem C1_counterexample :
    (createVitalRecord dbWithUser "u1" {} "vital_1"
        "2024-02-01T08:00:00.000Z" "2024-02-01").1.sync_queue.length = 0 ∧
    (getVitalRecord (createVitalRecord dbWithUser "u1" {} "vital_1"
        "2024-02-01T08:00:00.000Z" "2024-02-01").1 "vital_1").isSome = true :=
  ⟨rfl, rfl⟩

/-- Claim C1 (amended): no mutating record-service call writes the
`sync_queue` table at all.  All ten mutating operations
(`createVitalRecord`, `createFoodEntry`, `createMedication`,
`logMedicationIntake`, `updateVitalRecord`, `updateFoodEntry`,
`updateMedication`, `deleteVitalRecord`, `deleteFoodEntry`,
`deleteMedication`) leave `sync_queue` exactly as it was; the sole sync
bookkeeping they perform is writing the mutated row's own
`synced = 0` flag. -/
theorem C1_no_sync_queue_writes :
    ∀ (db : DB) (userId : String) (vdata : VitalPartial)
      (fdata : CreateFoodEntryData) (mdata : CreateMedicationData)
      (vupd : VitalPartial) (fupd : FoodEntryUpdates)
      (mupd : MedicationUpdates) (medId logUser : String) (taken : Bool)
      (notes : Option String) (id now today : String),
      (createVitalRecord db userId vdata id now today).1.sync_queue
          = db.sync_queue ∧
      (createFoodEntry db fdata id now).1.sync_queue = db.sync_queue ∧
      (createMedication db mdata id now).1.sync_queue = db.sync_queue ∧
      (logMedicationIntake db medId logUser taken notes id now).1.sync_queue
          = db.sync_queue ∧
      (updateVitalRecord db id vupd now).sync_queue = db.sync_queue ∧
      (updateFoodEntry db id fupd).sync_queue = db.sync_queue ∧
      (updateMedication db id mupd).sync_queue = db.sync_queue ∧
      (deleteVitalRecord db id).sync_queue = db.sync_queue ∧
      (deleteFoodEntry db id).sync_queue = db.sync_queue ∧
      (deleteMedication db id).sync_queue = db.sync_queue := by
  intros
  exact ⟨rfl, rfl, rfl, rfl, rfl, rfl, rfl, rfl, rfl, rfl⟩

/-! ## Claim C4 -/

/-- Claim C4: `deleteMedication` is not atomic and, with the foreign-key
enforcement that `initDatabase` switches on, cannot cascade at all.  On a
database holding medication `m1` with one log: (1) the first statement,
`DELETE FROM medications WHERE id = ?`, violates the non-cascading
FOREIGN KEY from `medication_logs` and fails, removing nothing; (2) even
with enforcement off, `deleteMedication` is exactly the sequential
composition of two independent statements, and the state after the first
alone — the state left behind if the second fails — has the medication
gone while its log is still present. -/
theorem C4_delete_medication_not_atomic :
    sqliteDeleteMedicationRow dbMedLog "m1" = .error .fkViolation ∧
    deleteMedication dbMedLogNoFk "m1" =
      deleteMedicationStmt2 (deleteMedicationStmt1 dbMedLogNoFk "m1") "m1" ∧
    getMedication (deleteMedicationStmt1 dbMedLogNoFk "m1") "m1" = none ∧
    (deleteMedicationStmt1 dbMedLogNoFk "m1").medication_logs = [log1] ∧
    sqliteDeleteMedicationRow dbMedLogNoFk "m1" =
      .ok (deleteMedicationStmt1 dbMedLogNoFk "m1") :=
  ⟨rfl, rfl, rfl, rfl, rfl⟩

/-! ## Claim C5 -/

/-- Claim C5: `getMedicationAdherence` returns
`adherenceRate = takenDoses / totalDoses * 100` whenever the window holds
at least one log, returns rate 0 (without dividing) when `totalDoses = 0`
— in particular for a user with no logs in the window — and its
taken/missed counts partition the total. -/
theorem C5_adherence_rate :
    ∀ (db : DB) (userId start : String),
      ((getMedicationAdherence db userId start).totalDoses = 0 →
        (getMedicationAdherence db userId start).adherenceRate = 0) ∧
      (0 < (getMedicationAdherence db userId start).totalDoses →
        (getMedicationAdherence db userId start).adherenceRate =
          ((getMedicationAdherence db userId start).takenDoses : ℚ) /
            ((getMedicationAdherence db userId start).totalDoses : ℚ) * 100) ∧
      (adherenceLogs db userId start = [] →
        (getMedicationAdherence db userId start).totalDoses = 0 ∧
        (getMedicationAdherence db userId start).adherenceRate = 0) ∧
      (getMedicationAdherence db userId start).takenDoses +
          (getMedicationAdherence db userId start).missedDoses =
        (getMedicationAdherence db userId start).totalDoses := by
  intro db userId start
  refine ⟨?_, ?_, ?_, ?_⟩
  · intro h
    simp only [getMedicationAdherence] at h ⊢
    simp [h]
  · intro h
    simp only [getMedicationAdherence] at h ⊢
    rw [if_pos h]
  · intro h
    simp only [getMedicationAdherence, h]
    simp
  · simp only [getMedicationAdherence]
    exact filter_partition_length (fun r : MedLogRow => r.taken) _

/-- Claim C5 witness: on a database with seven taken and three missed
doses inside the window the stats are 10/7/3 and the rate computed by
the formula conjunct is exactly 70. -/
theorem C5_witness :
    (getMedicationAdherence adherenceDb "u1" "2024-02-01").totalDoses = 10 ∧
    (getMedicationAdherence adherenceDb "u1" "2024-02-01").takenDoses = 7 ∧
    (getMedicationAdherence adherenceDb "u1" "2024-02-01").missedDoses = 3 ∧
    (getMedicationAdherence adherenceDb "u1" "2024-02-01").adherenceRate = 70 := by
  have h := (C5_adherence_rate adherenceDb "u1" "2024-02-01").2.1 (by decide)
  have ht : (getMedicationAdherence adherenceDb "u1" "2024-02-01").takenDoses = 7 := by
    decide
  have hn : (getMedicationAdherence adherenceDb "u1" "2024-02-01").totalDoses = 10 := by
    decide
  refine ⟨hn, ht, by decide, ?_⟩
  rw [h, ht, hn]
  norm_num

/-! ## Claim C6 -/

/-- Claim C6: `getDailyNutritionSummary` returns, per nutrient column,
the sum over the user's entries for the day with NULL fields
contributing zero, and when no entry matches the day every summed field
is 0 and the count is 0 (never NULL). -/
theorem C6_nutrition_summary :
    ∀ (db : DB) (userId s e : String),
      (foodEntriesInDay db userId s e = [] →
        getDailyNutritionSummary db userId s e =
          ⟨0, 0, 0, 0, 0, 0, 0, 0, 0⟩) ∧
      (getDailyNutritionSummary db userId s e).totalCalories =
        ((foodEntriesInDay db userId s e).map (fun r => r.calories.getD 0)).sum ∧
      (getDailyNutritionSummary db userId s e).totalProtein =
        ((foodEntriesInDay db userId s e).map (fun r => r.protein.getD 0)).sum ∧
      (getDailyNutritionSummary db userId s e).totalCarbs =
        ((foodEntriesInDay db userId s e).map (fun r => r.carbs.getD 0)).sum ∧
      (getDailyNutritionSummary db userId s e).totalFat =
        ((foodEntriesInDay db userId s e).map (fun r => r.fat.getD 0)).sum ∧
      (getDailyNutritionSummary db userId s e).totalSodium =
        ((foodEntriesInDay db userId s e).map (fun r => r.sodium.getD 0)).sum ∧
      (getDailyNutritionSummary db userId s e).totalPotassium =
        ((foodEntriesInDay db userId s e).map (fun r => r.potassium.getD 0)).sum ∧
      (getDailyNutritionSummary db userId s e).totalPhosphorus =
        ((foodEntriesInDay db userId s e).map (fun r => r.phosphorus.getD 0)).sum ∧
      (getDailyNutritionSummary db userId s e).totalFluid =
        ((foodEntriesInDay db userId s e).map (fun r => r.fluid.getD 0)).sum ∧
      (getDailyNutritionSummary db userId s e).entriesCount =
        (foodEntriesInDay db userId s e).length := by
  intro db userId s e
  refine ⟨?_, ?_, ?_, ?_, ?_, ?_, ?_, ?_, ?_, ?_⟩
  · intro h
    simp only [getDailyNutritionSummary, h]
    rfl
  all_goals
    simp only [getDailyNutritionSummary]
  all_goals
    rw [sqlSumC_eq_sum_getD, List.map_map]
  all_goals
    rfl

/-- Claim C6 witness: with no food entries at all on the requested day
every summed field of the summary is zero. -/
theorem C6_witness :
    getDailyNutritionSummary dbWithUser "u1" "2024-02-01T00:00:00.000Z"
        "2024-02-01T23:59:59.999Z" = ⟨0, 0, 0, 0, 0, 0, 0, 0, 0⟩ :=
  (C6_nutrition_summary dbWithUser "u1" "2024-02-01T00:00:00.000Z"
      "2024-02-01T23:59:59.999Z").1 (by decide)

/-! ## Claims C2, C3, C10: further fixtures -/

def food0 : FoodRow :=
  { id := "f1", user_id := "u1", date := "2024-01-15T12:00:00.000Z",
    name := "Apple", meal_type := "snack", serving_size := some "1 medium",
    calories := some 95, protein := some 1, carbs := some 25, fat := none,
    sodium := some 2, potassium := some 195, phosphorus := some 20,
    fluid := none, notes := none,
    created_at := "2024-01-15T12:00:00.000Z",
    updated_at := some "2024-01-15T12:00:00.000Z", synced := true }

def dbF : DB := { dbWithUser with food_entries := [food0] }

/-- A creation input whose `calories` is the (falsy) number 0. -/
def fdataZero : CreateFoodEntryData :=
  { userId := "u1", name := "Water", mealType := "snack",
    calories := some 0, fluid := some 250 }

/-- A creation input with no falsy field values. -/
def fdataGood : CreateFoodEntryData :=
  { userId := "u1", name := "Apple", mealType := "snack",
    servingSize := some "1 medium", calories := some 95,
    protein := some 1, date := some "2024-02-01T12:00:00.000Z" }

/-- A vitals creation input containing the zero-valued `weight`. -/
def vdataGood : VitalPartial :=
  { date := some "2024-02-01", weight := some 0, systolic := some 120 }

/-! ## Claim C2 -/

/-- Claim C2 counterexample: `updateMedication` applied to an existing
row (here renaming `m1` at some later call time) leaves `updated_at`
exactly as it was before the call — the service's SET list contains only
the supplied fields plus `synced = 0` and never mentions `updated_at` —
so `updatedAt` is not set to the current time and does not strictly
increase. -/
theorem C2_counterexample :
    med0.updated_at = some "2024-01-01T00:00:00.000Z" ∧
    (getMedication (updateMedication dbMed "m1"
        { name := some "Renamed" }) "m1").map
        (fun r => (r.updated_at, r.synced, r.name)) =
      some (some "2024-01-01T00:00:00.000Z", false, "Renamed") :=
  ⟨rfl, rfl⟩

/-- Claim C2 (amended): for all three entity updates applied to an
existing row, every field absent from the partial-update argument keeps
its stored value and `synced` becomes false; `updateVitalRecord`
additionally sets `updated_at` to the call's current time, while
`updateFoodEntry` and `updateMedication` leave `updated_at` unchanged
(the key columns `id`, `user_id` and `created_at` — and `date` where it
exists — are untouched by all three). -/
theorem C2_update_merge_semantics :
    (∀ (db : DB) (id : String) (data : VitalPartial) (now : String)
        (row : VitalsRow), findVitalRow db id = some row →
      findVitalRow (updateVitalRecord db id data now) id =
          some (applyVitalUpdate data now row) ∧
        (data.weight = none →
          (applyVitalUpdate data now row).weight = row.weight) ∧
        (data.systolic = none →
          (applyVitalUpdate data now row).systolic = row.systolic) ∧
        (data.diastolic = none →
          (applyVitalUpdate data now row).diastolic = row.diastolic) ∧
        (data.heartRate = none →
          (applyVitalUpdate data now row).heart_rate = row.heart_rate) ∧
        (data.oxygenSaturation = none →
          (applyVitalUpdate data now row).oxygen_saturation
            = row.oxygen_saturation) ∧
        (data.fluidIntake = none →
          (applyVitalUpdate data now row).fluid_intake = row.fluid_intake) ∧
        (data.urineOutput = none →
          (applyVitalUpdate data now row).urine_output = row.urine_output) ∧
        (data.temperature = none →
          (applyVitalUpdate data now row).temperature = row.temperature) ∧
        (data.notes = none →
          (applyVitalUpdate data now row).notes = row.notes) ∧
        (applyVitalUpdate data now row).updated_at = now ∧
        (applyVitalUpdate data now row).synced = false ∧
        (applyVitalUpdate data now row).id = row.id ∧
        (applyVitalUpdate data now row).user_id = row.user_id ∧
        (applyVitalUpdate data now row).date = row.date ∧
        (applyVitalUpdate data now row).created_at = row.created_at) ∧
    (∀ (db : DB) (id : String) (upd : FoodEntryUpdates) (row : FoodRow),
        getFoodEntry db id = some row →
      getFoodEntry (updateFoodEntry db id upd) id =
          some (applyFoodUpdate upd row) ∧
        (upd.name = none → (applyFoodUpdate upd row).name = row.name) ∧
        (upd.mealType = none →
          (applyFoodUpdate upd row).meal_type = row.meal_type) ∧
        (upd.servingSize = none →
          (applyFoodUpdate upd row).serving_size = row.serving_size) ∧
        (upd.calories = none →
          (applyFoodUpdate upd row).calories = row.calories) ∧
        (upd.protein = none →
          (applyFoodUpdate upd row).protein = row.protein) ∧
        (upd.carbs = none → (applyFoodUpdate upd row).carbs = row.carbs) ∧
        (upd.fat = none → (applyFoodUpdate upd row).fat = row.fat) ∧
        (upd.sodium = none → (applyFoodUpdate upd row).sodium = row.sodium) ∧
        (upd.potassium = none →
          (applyFoodUpdate upd row).potassium = row.potassium) ∧
        (upd.phosphorus = none →
          (applyFoodUpdate upd row).phosphorus = row.phosphorus) ∧
        (upd.fluid = none → (applyFoodUpdate upd row).fluid = row.fluid) ∧
        (upd.notes = none → (applyFoodUpdate upd row).notes = row.notes) ∧
        (applyFoodUpdate upd row).synced = false ∧
        (applyFoodUpdate upd row).updated_at = row.updated_at ∧
        (applyFoodUpdate upd row).id = row.id ∧
        (applyFoodUpdate upd row).user_id = row.user_id ∧
        (applyFoodUpdate upd row).date = row.date ∧
        (applyFoodUpdate upd row).created_at = row.created_at) ∧
    (∀ (db : DB) (id : String) (upd : MedicationUpdates)
        (row : MedicationRow), getMedication db id = some row →
      getMedication (updateMedication db id upd) id =
          some (applyMedUpdate upd row) ∧
        (upd.name = none → (applyMedUpdate upd row).name = row.name) ∧
        (upd.dosage = none → (applyMedUpdate upd row).dosage = row.dosage) ∧
        (upd.frequency = none →
          (applyMedUpdate upd row).frequency = row.frequency) ∧
        (upd.timeOfDay = none →
          (applyMedUpdate upd row).time_of_day = row.time_of_day) ∧
        (upd.startDate = none →
          (applyMedUpdate upd row).start_date = row.start_date) ∧
        (upd.endDate = none →
          (applyMedUpdate upd row).end_date = row.end_date) ∧
        (upd.instructions = none →
          (applyMedUpdate upd row).instructions = row.instructions) ∧
        (upd.reminderEnabled = none →
          (applyMedUpdate upd row).reminder_enabled
            = row.reminder_enabled) ∧
        (applyMedUpdate upd row).synced = false ∧
        (applyMedUpdate upd row).updated_at = row.updated_at ∧
        (applyMedUpdate upd row).id = row.id ∧
        (applyMedUpdate upd row).user_id = row.user_id ∧
        (applyMedUpdate upd row).created_at = row.created_at) := by
  refine ⟨?_, ?_, ?_⟩
  · intro db id data now row h
    refine ⟨updateVitalRecord_find db id data now row h,
      ?_, ?_, ?_, ?_, ?_, ?_, ?_, ?_, ?_, rfl, rfl, rfl, rfl, rfl, rfl⟩
    all_goals (intro hx; simp [applyVitalUpdate, hx])
  · intro db id upd row h
    refine ⟨updateFoodEntry_find db id upd row h,
      ?_, ?_, ?_, ?_, ?_, ?_, ?_, ?_, ?_, ?_, ?_, ?_, rfl, rfl, rfl, rfl,
      rfl, rfl⟩
    all_goals (intro hx; simp [applyFoodUpdate, hx])
  · intro db id upd row h
    refine ⟨updateMedication_find db id upd row h,
      ?_, ?_, ?_, ?_, ?_, ?_, ?_, ?_, rfl, rfl, rfl, rfl, rfl⟩
    all_goals (intro hx; simp [applyMedUpdate, hx])

/-- Claim C2 witness: the three update operations applied to concrete
stored rows with empty partials — the stored fields survive, `synced`
flips to false, the vitals row gets the fresh `updated_at` while the
food and medication rows keep their old one. -/
theorem C2_witness :
    findVitalRow (updateVitalRecord dbV "v1" {} "2024-03-01T00:00:00.000Z")
        "v1" = some (applyVitalUpdate {} "2024-03-01T00:00:00.000Z" vital0) ∧
    (applyVitalUpdate {} "2024-03-01T00:00:00.000Z" vital0).weight
        = vital0.weight ∧
    (applyVitalUpdate {} "2024-03-01T00:00:00.000Z" vital0).updated_at
        = "2024-03-01T00:00:00.000Z" ∧
    getFoodEntry (updateFoodEntry dbF "f1" {}) "f1" =
        some (applyFoodUpdate {} food0) ∧
    (applyFoodUpdate {} food0).updated_at = food0.updated_at ∧
    getMedication (updateMedication dbMed "m1" {}) "m1" =
        some (applyMedUpdate {} med0) ∧
    (applyMedUpdate {} med0).updated_at = med0.updated_at ∧
    (applyMedUpdate {} med0).synced = false := by
  have hv := C2_update_merge_semantics.1 dbV "v1" {}
    "2024-03-01T00:00:00.000Z" vital0 (by rfl)
  have hf := C2_update_merge_semantics.2.1 dbF "f1" {} food0 (by rfl)
  have hm := C2_update_merge_semantics.2.2 dbMed "m1" {} med0 (by rfl)
  exact ⟨hv.1, hv.2.1 rfl, rfl, hf.1, rfl, hm.1, rfl, rfl⟩

/-! ## Claim C3 -/

/-- Claim C3 counterexample: creating a food entry whose supplied
`calories` is the number 0 and immediately reading it back by id yields
`calories = NULL` (the INSERT binds `data.calories || null`, and 0 is
falsy), not the supplied 0 — and the stored row also carries no
`updatedAt` at all, since the food INSERT never writes that column. -/
theorem C3_counterexample :
    fdataZero.calories = some 0 ∧
    (getFoodEntry (createFoodEntry dbWithUser fdataZero "f9"
          "2024-02-01T12:00:00.000Z").1 "f9").map
        (fun r => (r.calories, r.fluid, r.updated_at)) =
      some (none, some 250, none) :=
  ⟨rfl, rfl⟩

/-- Claim C3 (amended): `create` followed immediately by `getById`
returns the stored row with the generated id, `createdAt`, and
`synced = false`, equal to the creation input on every supplied field
except that the food service coerces falsy supplied values (the number
0, the empty string) to NULL through its `|| null` parameter bindings —
so equality holds for supplied numeric fields only when they are
non-zero and for strings only when nonempty — and the food row carries
no `updatedAt` (the column is absent from the food INSERT).  The vitals
service binds its parameters directly, so its create/read round-trip
preserves every supplied field exactly, zero values included, with
`createdAt = updatedAt = now`. -/
theorem C3_create_roundtrip :
    (∀ (db : DB) (data : CreateFoodEntryData) (id now : String),
      getFoodEntry db id = none →
      (createFoodEntry db data id now).2 = some (foodRowOfCreate data id now) ∧
      getFoodEntry (createFoodEntry db data id now).1 id =
        some (foodRowOfCreate data id now) ∧
      (foodRowOfCreate data id now).id = id ∧
      (foodRowOfCreate data id now).user_id = data.userId ∧
      (foodRowOfCreate data id now).name = data.name ∧
      (foodRowOfCreate data id now).meal_type = data.mealType ∧
      (foodRowOfCreate data id now).date = data.date.getD now ∧
      (foodRowOfCreate data id now).created_at = data.date.getD now ∧
      (foodRowOfCreate data id now).synced = false ∧
      (∀ v : Int, data.calories = some v → ¬(v = 0) →
        (foodRowOfCreate data id now).calories = some v) ∧
      (∀ v : Int, data.protein = some v → ¬(v = 0) →
        (foodRowOfCreate data id now).protein = some v) ∧
      (∀ v : Int, data.carbs = some v → ¬(v = 0) →
        (foodRowOfCreate data id now).carbs = some v) ∧
      (∀ v : Int, data.fat = some v → ¬(v = 0) →
        (foodRowOfCreate data id now).fat = some v) ∧
      (∀ v : Int, data.sodium = some v → ¬(v = 0) →
        (foodRowOfCreate data id now).sodium = some v) ∧
      (∀ v : Int, data.potassium = some v → ¬(v = 0) →
        (foodRowOfCreate data id now).potassium = some v) ∧
      (∀ v : Int, data.phosphorus = some v → ¬(v = 0) →
        (foodRowOfCreate data id now).phosphorus = some v) ∧
      (∀ v : Int, data.fluid = some v → ¬(v = 0) →
        (foodRowOfCreate data id now).fluid = some v) ∧
      (∀ s : String, data.servingSize = some s → ¬(s = "") →
        (foodRowOfCreate data id now).serving_size = some s) ∧
      (∀ s : String, data.notes = some s → ¬(s = "") →
        (foodRowOfCreate data id now).notes = some s)) ∧
    (∀ (db : DB) (userId : String) (data : VitalPartial)
        (id now today : String),
      findVitalRow db id = none →
      getVitalRecord (createVitalRecord db userId data id now today).1 id =
        some (createVitalRecord db userId data id now today).2 ∧
      (createVitalRecord db userId data id now today).2.weight = data.weight ∧
      (createVitalRecord db userId data id now today).2.systolic
          = data.systolic ∧
      (createVitalRecord db userId data id now today).2.diastolic
          = data.diastolic ∧
      (createVitalRecord db userId data id now today).2.heartRate
          = data.heartRate ∧
      (createVitalRecord db userId data id now today).2.oxygenSaturation
          = data.oxygenSaturation ∧
      (createVitalRecord db userId data id now today).2.fluidIntake
          = data.fluidIntake ∧
      (createVitalRecord db userId data id now today).2.urineOutput
          = data.urineOutput ∧
      (createVitalRecord db userId data id now today).2.temperature
          = data.temperature ∧
      (createVitalRecord db userId data id now today).2.notes = data.notes ∧
      (createVitalRecord db userId data id now today).2.id = id ∧
      (createVitalRecord db userId data id now today).2.userId = userId ∧
      (createVitalRecord db userId data id now today).2.createdAt = now ∧
      (createVitalRecord db userId data id now today).2.updatedAt = now ∧
      (createVitalRecord db userId data id now today).2.synced = false) := by
  refine ⟨?_, ?_⟩
  · intro db data id now h
    have h' : db.food_entries.find? (fun r => decide (r.id = id)) = none := h
    have hfind : (db.food_entries ++ [foodRowOfCreate data id now]).find?
        (fun r => decide (r.id = id)) = some (foodRowOfCreate data id now) := by
      rw [find_append_fresh _ _ _ h']
      simp [foodRowOfCreate]
    refine ⟨?_, ?_, rfl, rfl, rfl, rfl, rfl, rfl, rfl,
      ?_, ?_, ?_, ?_, ?_, ?_, ?_, ?_, ?_, ?_⟩
    · simpa [createFoodEntry] using hfind
    · simpa [createFoodEntry, getFoodEntry] using hfind
    all_goals
      intro v hv hnz
    all_goals
      simp [foodRowOfCreate, hv, jsOrNullInt, jsOrNullStr, hnz]
  · intro db userId data id now today h
    have h' : db.vitals.find? (fun r => decide (r.id = id)) = none := h
    refine ⟨?_, rfl, rfl, rfl, rfl, rfl, rfl, rfl, rfl, rfl, rfl, rfl,
      rfl, rfl, rfl⟩
    simp only [getVitalRecord, findVitalRow, createVitalRecord]
    rw [find_append_fresh _ _ _ h']
    simp [rowOfVitalRecord, vitalRecordOfRow]

/-- Claim C3 witness: a concrete food creation with non-falsy supplied
values round-trips through `getFoodEntry`, and a concrete vitals
creation round-trips through `getVitalRecord` preserving even its
zero-valued `weight`. -/
theorem C3_witness :
    getFoodEntry (createFoodEntry dbWithUser fdataGood "f2"
        "2024-02-01T12:30:00.000Z").1 "f2" =
      some (foodRowOfCreate fdataGood "f2" "2024-02-01T12:30:00.000Z") ∧
    (foodRowOfCreate fdataGood "f2" "2024-02-01T12:30:00.000Z").calories
        = some 95 ∧
    getVitalRecord (createVitalRecord dbWithUser "u1" vdataGood "v2"
        "2024-02-01T12:30:00.000Z" "2024-02-01").1 "v2" =
      some (createVitalRecord dbWithUser "u1" vdataGood "v2"
        "2024-02-01T12:30:00.000Z" "2024-02-01").2 ∧
    (createVitalRecord dbWithUser "u1" vdataGood "v2"
        "2024-02-01T12:30:00.000Z" "2024-02-01").2.weight = some 0 := by
  have hf := (C3_create_roundtrip.1 dbWithUser fdataGood "f2"
    "2024-02-01T12:30:00.000Z" (by rfl))
  have hv := (C3_create_roundtrip.2 dbWithUser "u1" vdataGood "v2"
    "2024-02-01T12:30:00.000Z" "2024-02-01" (by rfl))
  exact ⟨hf.2.1, (hf.2.2.2.2.2.2.2.2.2.1 95 rfl (by decide)), hv.1,
    (hv.2.1).trans rfl⟩

/-! ## Claim C10 -/

/-- COALESCE keeps a non-NULL stored value non-NULL whatever the bound
parameter is. -/
theorem coalescePres {α : Type} (u v : Option α) (h : v.isSome = true) :
    (match u with | some x => some x | none => v).isSome = true := by
  cases u <;> simp [h]

/-- Claim C10: `updateVitalRecord` can never clear a stored field: each
data column is written `COALESCE(new, old)`, so every column non-NULL
before the call is non-NULL after it, a NULL (or absent) parameter
leaves the stored value intact, and only `updated_at` and `synced` are
overwritten unconditionally (`id`, `user_id`, `date`, `created_at` are
not in the SET clause at all). -/
theorem C10_coalesce_never_clears :
    ∀ (db : DB) (id : String) (data : VitalPartial) (now : String)
      (row : VitalsRow), findVitalRow db id = some row →
    findVitalRow (updateVitalRecord db id data now) id =
        some (applyVitalUpdate data now row) ∧
      (row.weight.isSome = true →
        (applyVitalUpdate data now row).weight.isSome = true) ∧
      (data.weight = none →
        (applyVitalUpdate data now row).weight = row.weight) ∧
      (row.systolic.isSome = true →
        (applyVitalUpdate data now row).systolic.isSome = true) ∧
      (data.systolic = none →
        (applyVitalUpdate data now row).systolic = row.systolic) ∧
      (row.diastolic.isSome = true →
        (applyVitalUpdate data now row).diastolic.isSome = true) ∧
      (data.diastolic = none →
        (applyVitalUpdate data now row).diastolic = row.diastolic) ∧
      (row.heart_rate.isSome = true →
        (applyVitalUpdate data now row).heart_rate.isSome = true) ∧
      (data.heartRate = none →
        (applyVitalUpdate data now row).heart_rate = row.heart_rate) ∧
      (row.oxygen_saturation.isSome = true →
        (applyVitalUpdate data now row).oxygen_saturation.isSome = true) ∧
      (data.oxygenSaturation = none →
        (applyVitalUpdate data now row).oxygen_saturation
          = row.oxygen_saturation) ∧
      (row.fluid_intake.isSome = true →
        (applyVitalUpdate data now row).fluid_intake.isSome = true) ∧
      (data.fluidIntake = none →
        (applyVitalUpdate data now row).fluid_intake = row.fluid_intake) ∧
      (row.urine_output.isSome = true →
        (applyVitalUpdate data now row).urine_output.isSome = true) ∧
      (data.urineOutput = none →
        (applyVitalUpdate data now row).urine_output = row.urine_output) ∧
      (row.temperature.isSome = true →
        (applyVitalUpdate data now row).temperature.isSome = true) ∧
      (data.temperature = none →
        (applyVitalUpdate data now row).temperature = row.temperature) ∧
      (row.notes.isSome = true →
        (applyVitalUpdate data now row).notes.isSome = true) ∧
      (data.notes = none →
        (applyVitalUpdate data now row).notes = row.notes) ∧
      (applyVitalUpdate data now row).updated_at = now ∧
      (applyVitalUpdate data now row).synced = false ∧
      (applyVitalUpdate data now row).id = row.id ∧
      (applyVitalUpdate data now row).user_id = row.user_id ∧
      (applyVitalUpdate data now row).date = row.date ∧
      (applyVitalUpdate data now row).created_at = row.created_at := by
  intro db id data now row h
  refine ⟨updateVitalRecord_find db id data now row h,
    ?_, ?_, ?_, ?_, ?_, ?_, ?_, ?_, ?_, ?_, ?_, ?_, ?_, ?_, ?_, ?_, ?_, ?_,
    rfl, rfl, rfl, rfl, rfl, rfl⟩
  all_goals
    intro hx
  all_goals
    simp only [applyVitalUpdate]
  all_goals
    split <;> simp_all

/-- Claim C10 witness: updating `v1` with an all-absent partial keeps
every stored measurement non-NULL and intact while `updated_at` and
`synced` are rewritten. -/
theorem C10_witness :
    findVitalRow (updateVitalRecord dbV "v1" {} "2024-03-02T00:00:00.000Z")
        "v1" = some (applyVitalUpdate {} "2024-03-02T00:00:00.000Z" vital0) ∧
    (applyVitalUpdate {} "2024-03-02T00:00:00.000Z" vital0).weight.isSome
        = true ∧
    (applyVitalUpdate {} "2024-03-02T00:00:00.000Z" vital0).notes
        = vital0.notes ∧
    (applyVitalUpdate {} "2024-03-02T00:00:00.000Z" vital0).updated_at
        = "2024-03-02T00:00:00.000Z" := by
  have h := C10_coalesce_never_clears dbV "v1" {} "2024-03-02T00:00:00.000Z"
    vital0 (by rfl)
  exact ⟨h.1, h.2.1 rfl, h.2.2.2.2.2.2.2.2.2.2.2.2.2.2.2.2.2.2.1 rfl,
    rfl⟩

/-! ## Claim C7 -/

/-- Whether the pair (email, password) fails to match a stored row:
either no `users` row carries the lower-cased email, or the row's stored
hash differs from the digest of the submitted password. -/
def credsFail (hash : String → String) (db : DB)
    (email password : String) : Bool :=
  match findUserByEmail db (lowerStr email) with
  | none => true
  | some u => !(u.password_hash = some (hash password))

/-- Under a well-formed email, a nonempty password and non-matching
credentials, `signIn` returns exactly the shared invalid-credentials
response. -/
theorem signIn_creds_fail (hash : String → String) (db : DB)
    (email password tok now : String) (h1 : isValidEmail email = true)
    (h2 : ¬(password = "")) (h3 : credsFail hash db email password = true) :
    signIn DbOracle.allOk hash db email password tok now =
      invalidCredentialsResponse := by
  have hbody : signInBody DbOracle.allOk hash db email password tok now =
      .ok invalidCredentialsResponse := by
    unfold signInBody
    unfold credsFail at h3
    simp only [h1, DbOracle.allOk, Bool.not_true, Bool.false_eq_true,
      if_false, if_neg h2]
    cases hf : findUserByEmail db (lowerStr email) with
    | none => simp [hf]
    | some u =>
      rw [hf] at h3
      have h3a : ¬(u.password_hash = some (hash password)) := by
        simpa using h3
      simp [hf, h3a]
  unfold signIn
  rw [hbody]

/-- Claim C7: login with a non-matching email/password pair (well-formed
email, nonempty password) produces one and the same observable failure —
the full response, hence in particular the success flag and the message
— whether no user with that email exists or the user exists with a
different password hash: both calls return the single
invalid-credentials response, so a caller cannot distinguish the two
causes. -/
theorem C7_login_uniform_failure :
    ∀ (hash : String → String) (db1 db2 : DB)
      (e1 p1 tok1 now1 e2 p2 tok2 now2 : String),
      isValidEmail e1 = true → ¬(p1 = "") →
      credsFail hash db1 e1 p1 = true →
      isValidEmail e2 = true → ¬(p2 = "") →
      credsFail hash db2 e2 p2 = true →
      signIn DbOracle.allOk hash db1 e1 p1 tok1 now1 =
        invalidCredentialsResponse ∧
      signIn DbOracle.allOk hash db2 e2 p2 tok2 now2 =
        invalidCredentialsResponse ∧
      (signIn DbOracle.allOk hash db1 e1 p1 tok1 now1).success =
        (signIn DbOracle.allOk hash db2 e2 p2 tok2 now2).success ∧
      (signIn DbOracle.allOk hash db1 e1 p1 tok1 now1).message =
        (signIn DbOracle.allOk hash db2 e2 p2 tok2 now2).message := by
  intro hash db1 db2 e1 p1 tok1 now1 e2 p2 tok2 now2 h1 h2 h3 h4 h5 h6
  have L1 := signIn_creds_fail hash db1 e1 p1 tok1 now1 h1 h2 h3
  have L2 := signIn_creds_fail hash db2 e2 p2 tok2 now2 h4 h5 h6
  refine ⟨L1, L2, ?_, ?_⟩ <;> rw [L1, L2]

/-- Claim C7 witness: against the concrete store holding only `u1`
(hash "h1"), the unknown-email attempt and the known-email wrong-password
attempt return the identical invalid-credentials response. -/
theorem C7_witness :
    signIn DbOracle.allOk wHash dbWithUser "nouser@example.com" "pw12345"
        "tk1" "2024-02-01T00:00:00.000Z" = invalidCredentialsResponse ∧
    signIn DbOracle.allOk wHash dbWithUser "pat@example.com" "wrongpw"
        "tk2" "2024-02-02T00:00:00.000Z" = invalidCredentialsResponse ∧
    (signIn DbOracle.allOk wHash dbWithUser "nouser@example.com" "pw12345"
        "tk1" "2024-02-01T00:00:00.000Z").message =
      (signIn DbOracle.allOk wHash dbWithUser "pat@example.com" "wrongpw"
        "tk2" "2024-02-02T00:00:00.000Z").message := by
  have h := C7_login_uniform_failure wHash dbWithUser dbWithUser
    "nouser@example.com" "pw12345" "tk1" "2024-02-01T00:00:00.000Z"
    "pat@example.com" "wrongpw" "tk2" "2024-02-02T00:00:00.000Z"
    (by decide) (by decide) (by decide) (by decide) (by decide) (by decide)
  exact ⟨h.1, h.2.1, h.2.2.2⟩

/-! ## Claim C8 -/

/-- Claim C8: `initDatabase` turns foreign-key enforcement on for a
fresh connection (and leaves an existing handle untouched), and while
enforcement is on no vitals, food_entries or medications row whose
`user_id` matches no stored user can be inserted — conversely any
successfully inserted child row references an existing user. -/
theorem C8_fk_enforcement :
    (initDatabase none).fk = true ∧
    (∀ db : DB, initDatabase (some db) = db) ∧
    (∀ (db : DB) (r : VitalsRow), db.fk = true →
      userExists db r.user_id = false → (insertVitalRow db r).isOk = false) ∧
    (∀ (db : DB) (r : FoodRow), db.fk = true →
      userExists db r.user_id = false → (insertFoodRow db r).isOk = false) ∧
    (∀ (db : DB) (r : MedicationRow), db.fk = true →
      userExists db r.user_id = false →
      (insertMedicationRow db r).isOk = false) ∧
    (∀ (db db2 : DB) (r : VitalsRow), db.fk = true →
      insertVitalRow db r = .ok db2 → userExists db r.user_id = true) ∧
    (∀ (db db2 : DB) (r : FoodRow), db.fk = true →
      insertFoodRow db r = .ok db2 → userExists db r.user_id = true) ∧
    (∀ (db db2 : DB) (r : MedicationRow), db.fk = true →
      insertMedicationRow db r = .ok db2 →
      userExists db r.user_id = true) := by
  refine ⟨rfl, fun db => rfl, ?_, ?_, ?_, ?_, ?_, ?_⟩
  · intro db r hfk hu
    unfold insertVitalRow
    split_ifs with hpk hviol
    · rfl
    · rfl
    · simp [hfk, hu] at hviol
  · intro db r hfk hu
    unfold insertFoodRow
    split_ifs with hpk hviol
    · rfl
    · rfl
    · simp [hfk, hu] at hviol
  · intro db r hfk hu
    unfold insertMedicationRow
    split_ifs with hpk hviol
    · rfl
    · rfl
    · simp [hfk, hu] at hviol
  · intro db db2 r hfk hok
    unfold insertVitalRow at hok
    split_ifs at hok with hpk hviol
    · simpa [hfk] using hviol
  · intro db db2 r hfk hok
    unfold insertFoodRow at hok
    split_ifs at hok with hpk hviol
    · simpa [hfk] using hviol
  · intro db db2 r hfk hok
    unfold insertMedicationRow at hok
    split_ifs at hok with hpk hviol
    · simpa [hfk] using hviol

def ghostVital : VitalsRow := { vital0 with id := "gv", user_id := "ghost" }

def ghostFood : FoodRow := { food0 with id := "gf", user_id := "ghost" }

def ghostMed : MedicationRow := { med0 with id := "gm", user_id := "ghost" }

/-- Claim C8 witness: on the freshly initialized (foreign-keys-on,
empty) database, inserting a vitals, food or medication row owned by the
nonexistent user "ghost" fails. -/
theorem C8_witness :
    (insertVitalRow (initDatabase none) ghostVital).isOk = false ∧
    (insertFoodRow (initDatabase none) ghostFood).isOk = false ∧
    (insertMedicationRow (initDatabase none) ghostMed).isOk = false := by
  refine ⟨?_, ?_, ?_⟩
  · exact C8_fk_enforcement.2.2.1 (initDatabase none) ghostVital rfl (by decide)
  · exact C8_fk_enforcement.2.2.2.1 (initDatabase none) ghostFood rfl (by decide)
  · exact C8_fk_enforcement.2.2.2.2.1 (initDatabase none) ghostMed rfl
      (by decide)

/-! ## Claim C9 -/

/-- Every normal (non-throwing) return of the `signUp` try block carries
a nonempty human-readable message. -/
theorem signUpBody_ok_message (o : DbOracle) (hash : String → String)
    (db : DB) (data : SignupData) (userId token now : String) :
    ∀ r, signUpBody o hash db data userId token now = .ok r →
      ¬(r.message = "") := by
  intro r h
  unfold signUpBody at h
  repeat' split at h
  all_goals simp_all
  all_goals (repeat' split at h)
  all_goals (try subst h)
  all_goals (try simp_all)
  all_goals (try subst h)
  all_goals simp

/-- Every normal return of the `signIn` try block carries a nonempty
message. -/
theorem signInBody_ok_message (o : DbOracle) (hash : String → String)
    (db : DB) (email password tok now : String) :
    ∀ r, signInBody o hash db email password tok now = .ok r →
      ¬(r.message = "") := by
  intro r h
  unfold signInBody at h
  repeat' split at h
  all_goals simp_all [invalidCredentialsResponse]
  all_goals subst h
  all_goals simp

/-- Every normal return of the `changePassword` try block carries a
nonempty message. -/
theorem changePasswordBody_ok_message (o : DbOracle)
    (hash : String → String) (db : DB) (uid curPw newPw : String) :
    ∀ r, changePasswordBody o hash db uid curPw newPw = .ok r →
      ¬(r.message = "") := by
  intro r h
  unfold changePasswordBody at h
  repeat' split at h
  all_goals simp_all
  all_goals subst h
  all_goals simp

/-- Claim C9: `signUp`, `signIn` and `changePassword` never propagate an
exception: whenever their try block aborts with a driver error (any call
site, any input) the caller still receives the plain catch-clause
`AuthResponse` with `success = false` and its fixed human-readable
message, and on every path whatsoever the returned message is
nonempty. -/
theorem C9_auth_total_error_handling :
    ∀ (o : DbOracle) (hash : String → String) (db : DB) (data : SignupData)
      (userId token now : String) (email password tok2 now2 : String)
      (uid curPw newPw : String),
      (∀ e, signUpBody o hash db data userId token now = .error e →
        signUp o hash db data userId token now = signUpCatchResponse) ∧
      (signUpCatchResponse.success = false) ∧
      ¬((signUp o hash db data userId token now).message = "") ∧
      (∀ e, signInBody o hash db email password tok2 now2 = .error e →
        signIn o hash db email password tok2 now2 = signInCatchResponse) ∧
      (signInCatchResponse.success = false) ∧
      ¬((signIn o hash db email password tok2 now2).message = "") ∧
      (∀ e, changePasswordBody o hash db uid curPw newPw = .error e →
        changePassword o hash db uid curPw newPw =
          changePasswordCatchResponse) ∧
      (changePasswordCatchResponse.success = false) ∧
      ¬((changePassword o hash db uid curPw newPw).message = "") := by
  intro o hash db data userId token now email password tok2 now2 uid curPw newPw
  refine ⟨?_, rfl, ?_, ?_, rfl, ?_, ?_, rfl, ?_⟩
  · intro e h
    unfold signUp
    rw [h]
  · unfold signUp
    cases hb : signUpBody o hash db data userId token now with
    | ok r =>
      simpa using signUpBody_ok_message o hash db data userId token now r hb
    | error e => simp [signUpCatchResponse]
  · intro e h
    unfold signIn
    rw [h]
  · unfold signIn
    cases hb : signInBody o hash db email password tok2 now2 with
    | ok r =>
      simpa using signInBody_ok_message o hash db email password tok2 now2 r hb
    | error e => simp [signInCatchResponse]
  · intro e h
    unfold changePassword
    rw [h]
  · unfold changePassword
    cases hb : changePasswordBody o hash db uid curPw newPw with
    | ok r =>
      simpa using changePasswordBody_ok_message o hash db uid curPw newPw r hb
    | error e => simp [changePasswordCatchResponse]

/-- A valid signup input (used to drive the run past validation into the
first driver call). -/
def sdata : SignupData :=
  { name := "Pat", email := "pat2@example.com", password := "secret123" }

/-- Claim C9 witness: with the first driver call failing, each of the
three functions returns its catch-clause response instead of
propagating the error. -/
theorem C9_witness :
    signUp ⟨true, false, false⟩ wHash dbWithUser sdata "u9" "tk9"
        "2024-02-01T00:00:00.000Z" = signUpCatchResponse ∧
    signIn ⟨true, false, false⟩ wHash dbWithUser "pat@example.com" "h1pw"
        "tk" "2024-02-01T00:00:00.000Z" = signInCatchResponse ∧
    changePassword ⟨true, false, false⟩ wHash dbWithUser "u1" "oldpw"
        "newpassword" = changePasswordCatchResponse := by
  have h := C9_auth_total_error_handling ⟨true, false, false⟩ wHash
    dbWithUser sdata "u9" "tk9" "2024-02-01T00:00:00.000Z"
    "pat@example.com" "h1pw" "tk" "2024-02-01T00:00:00.000Z"
    "u1" "oldpw" "newpassword"
  exact ⟨h.1 "QueryError" (by rfl), h.2.2.2.1 "QueryError" (by rfl),
    h.2.2.2.2.2.2.1 "QueryError" (by rfl)⟩
